import Mathlib

/-!
Verification of the UltraBox frame pipeline.

Shallow embedding of the frame-loop, scheduler and subsystem code in
`src/engine/ultra_box` (application.c, lowlevel/system.c, lowlevel/video.c,
lowlevel/device.c, lowlevel/gfx.h) and the template game frame loop in
`src/games/template/main.c`.
-/

namespace UltraBox

/-- The two hardware completion channels the frame loop blocks on:
the RDP (rasterizer) message queue `gUbxSystem.rdpMsgQueue` and the
vertical-retrace message queue `gUbxVideo.retraceMsgQueue`. -/
inductive Channel
  | rdp
  | retrace
  deriving DecidableEq

/-- Observable events of the frame-loop context, in the order they are
performed by `_OnGameNewFrame`, `_OnGameUpdate` and `_OnGameRender` in
src/games/template/main.c.  Write events carry the frame-slot index
(`gDrawBufferIndex` value) whose per-slot data they mutate. -/
inductive Event
  /-- building `gGfxState[slot].clearCmd` (main.c:339-370) -/
  | writeClearCmd (slot : Nat)
  /-- `osSpTaskStart(&pGfxState->clearTask)` (main.c:376) -/
  | clearSubmit (slot : Nat)
  /-- `SET_VTX_POS_V` writes into `gQuadVtx[slot]` (main.c:424-427) -/
  | writeVertex (slot : Nat)
  /-- writes into `gFrameState[slot].transform` (main.c:453,457) -/
  | writeTransform (slot : Nat)
  /-- building `gGfxState[slot].drawCmd` (main.c:478-513) -/
  | writeDrawCmd (slot : Nat)
  /-- `osRecvMesg(..., OS_MESG_BLOCK)` returning on the given queue -/
  | waitReturn (c : Channel)
  /-- `osSpTaskStart(&pGfxState->drawTask)` (main.c:522) -/
  | drawSubmit (slot : Nat)
  /-- `osViSwapBuffer(gFrameBuffer[slot])` (main.c:529) -/
  | present (slot : Nat)
  /-- `gDrawBufferIndex ^= 1` (main.c:534) -/
  | rotate
  deriving DecidableEq

/-- The frame-loop state observable across iterations: the build index
`gDrawBufferIndex` (main.c:177) and the index of the framebuffer the
display controller currently reads (last `osViSwapBuffer` argument). -/
structure LoopState where
  drawBufferIndex : Nat
  displayBuffer : Nat
  deriving DecidableEq

/-- Events of `_OnGameNewFrame` (main.c:332-378): build the clear command
list for slot `i`, then launch the clear task. -/
def onGameNewFrameEvents (i : Nat) : List Event :=
  [Event.writeClearCmd i, Event.clearSubmit i]

/-- Events of `_OnGameUpdate` (main.c:382-466): update `gQuadVtx[i]`
vertex positions, then write `gFrameState[i].transform`. -/
def onGameUpdateEvents (i : Nat) : List Event :=
  [Event.writeVertex i, Event.writeTransform i]

/-- Events of `_OnGameRender` (main.c:470-535): build the draw command list,
wait for the clear task on the RDP queue (main.c:519), launch the draw task,
wait for the draw task on the RDP queue (main.c:526), swap the display to
`gFrameBuffer[i]`, wait for vertical retrace (main.c:532), rotate the index. -/
def onGameRenderEvents (i : Nat) : List Event :=
  [Event.writeDrawCmd i, Event.waitReturn Channel.rdp, Event.drawSubmit i,
   Event.waitReturn Channel.rdp, Event.present i,
   Event.waitReturn Channel.retrace, Event.rotate]

/-- All events of one iteration of the `OnGameMainLoop` body (main.c:317-328)
when the current `gDrawBufferIndex` is `i`. -/
def frameEvents (i : Nat) : List Event :=
  onGameNewFrameEvents i ++ onGameUpdateEvents i ++ onGameRenderEvents i

/-- One iteration of the main loop: emits the iteration's events and updates
the loop state exactly as `_OnGameRender` does — `osViSwapBuffer` points the
display at `gFrameBuffer[gDrawBufferIndex]`, then `gDrawBufferIndex ^= 1`. -/
def frameStep (s : LoopState) : List Event × LoopState :=
  (frameEvents s.drawBufferIndex,
   { drawBufferIndex := s.drawBufferIndex ^^^ 1,
     displayBuffer := s.drawBufferIndex })

/-- State on entry to the main loop: `gDrawBufferIndex = 0` (main.c:177) and
the display reading `gFrameBuffer[1]`, from the initial swap performed by
`OnGameInitialize` (main.c:307, `osViSwapBuffer(gFrameBuffer[1])`). -/
def initState : LoopState :=
  { drawBufferIndex := 0, displayBuffer := 1 }

/-- Loop state after `n` completed frame iterations. -/
def stateAfter : Nat → LoopState
  | 0 => initState
  | n + 1 => (frameStep (stateAfter n)).2

/-- The Frame Index in effect during frame `n` (0-based). -/
def frameIndexAt (n : Nat) : Nat :=
  (stateAfter n).drawBufferIndex

/-- The event trace of frame `n`. -/
def frameTraceAt (n : Nat) : List Event :=
  (frameStep (stateAfter n)).1

/-- An event is a job submission (`osSpTaskStart`). -/
def isSubmit : Event → Bool
  | Event.clearSubmit _ => true
  | Event.drawSubmit _ => true
  | _ => false

/-- An event is a CPU write to per-slot frame data. -/
def isWrite : Event → Bool
  | Event.writeClearCmd _ => true
  | Event.writeVertex _ => true
  | Event.writeTransform _ => true
  | Event.writeDrawCmd _ => true
  | _ => false

/-- The slot a write event targets. -/
def writeSlot : Event → Option Nat
  | Event.writeClearCmd s => some s
  | Event.writeVertex s => some s
  | Event.writeTransform s => some s
  | Event.writeDrawCmd s => some s
  | _ => none

/-- An event is the submission of the draw job. -/
def isDrawSubmit : Event → Bool
  | Event.drawSubmit _ => true
  | _ => false

/-! ### Command list cursor (src/engine/ultra_box/lowlevel/gfx.h) -/

/-- `UbxGfxCommand` (gfx.h:32-36): the global cursor `gUbxGfxCmd`.  Pointers
are modelled as indices into the `Gfx` array in use. -/
structure UbxGfxCommand where
  pListTail : Nat
  pListHead : Nat
  deriving DecidableEq

/-- `UBX_GFX_CMD_USE(headptr)` (gfx.h:44): set both head and tail to the
start of the buffer. -/
def UBX_GFX_CMD_USE (headptr : Nat) : UbxGfxCommand :=
  { pListHead := headptr, pListTail := headptr }

/-- `UBX_GFX_CMD_NEXT` (gfx.h:45): post-increment of the tail cursor,
yielding the index written to.  No bounds check is performed. -/
def UBX_GFX_CMD_NEXT (c : UbxGfxCommand) : Nat × UbxGfxCommand :=
  (c.pListTail, { c with pListTail := c.pListTail + 1 })

/-- The graphics command opcodes appended by the template game's display-list
building code (each `gDP*`/`gSP*` macro writes exactly one `Gfx` entry at
`UBX_GFX_CMD_NEXT`). -/
inductive GfxOp
  | spDisplayList
  | dpSetCycleType
  | dpSetColorImage
  | dpSetFillColor
  | dpFillRectangle
  | dpSetDepthImage
  | dpFullSync
  | spEndDisplayList
  deriving DecidableEq

/-- Perform one unchecked command write: fetch the write index from
`UBX_GFX_CMD_NEXT` and record `(index, opcode)`. -/
def gfxWrite (st : UbxGfxCommand × List (Nat × GfxOp)) (op : GfxOp) :
    UbxGfxCommand × List (Nat × GfxOp) :=
  let nxt := UBX_GFX_CMD_NEXT st.1
  (nxt.2, st.2 ++ [(nxt.1, op)])

/-- `GFX_CLEAR_CMD_LENGTH` (main.c:62): capacity of each slot's
`clearCmd` array. -/
def GFX_CLEAR_CMD_LENGTH : Nat := 16

/-- The sequence of opcodes `_OnGameNewFrame` (main.c:332-377) appends to the
current slot's `clearCmd` buffer, in source order: `gSPDisplayList`,
`gDPSetCycleType`, depth-buffer `gDPSetColorImage`/`gDPSetFillColor`/
`gDPFillRectangle`, framebuffer `gDPSetColorImage`/`gDPSetFillColor`/
`gDPFillRectangle`, `gDPSetDepthImage`, `gDPFullSync`, `gSPEndDisplayList`. -/
def clearCmdOps : List GfxOp :=
  [GfxOp.spDisplayList, GfxOp.dpSetCycleType,
   GfxOp.dpSetColorImage, GfxOp.dpSetFillColor, GfxOp.dpFillRectangle,
   GfxOp.dpSetColorImage, GfxOp.dpSetFillColor, GfxOp.dpFillRectangle,
   GfxOp.dpSetDepthImage, GfxOp.dpFullSync, GfxOp.spEndDisplayList]

/-- Build the clear command list for one frame, starting from
`UBX_GFX_CMD_USE(pGfxState->clearCmd)` at base index `headptr`: the final
cursor state and the list of `(index, opcode)` writes performed. -/
def buildClearCmd (headptr : Nat) : UbxGfxCommand × List (Nat × GfxOp) :=
  clearCmdOps.foldl gfxWrite (UBX_GFX_CMD_USE headptr, [])

/-! ### Checked Command Buffer Builder -/

/-- Error result of a checked append. -/
inductive BuildError
  | bufferOverflow
  deriving DecidableEq

/-- Modelled from the spec: the redesigned Command Buffer Builder of §4.4
(`open`/`append`/`close` with a `BufferOverflow` check) does not exist in
src/ — the source has only the unchecked cursor macros of
src/engine/ultra_box/lowlevel/gfx.h.  Per the spec, `open(buffer)` resets the
cursor to `head` and `append(opcode)` writes at `tail` and advances it,
failing with `BufferOverflow` if advancing would exceed `capacity`.  The
written region `[head, tail)` is modelled as the list `written`, so
`tail - head = written.length`. -/
structure CmdBuilder where
  capacity : Nat
  written : List GfxOp
  deriving DecidableEq

/-- Modelled from the spec: `open(buffer)` — reset the cursor to `head`,
so nothing is written yet. -/
def openCmdBuffer (cap : Nat) : CmdBuilder :=
  { capacity := cap, written := [] }

/-- Modelled from the spec: `append(opcode)` — write at `tail` and advance,
failing with `BufferOverflow` (writing nothing) if advancing would exceed
`capacity`. -/
def CmdBuilder.append (b : CmdBuilder) (op : GfxOp) : Except BuildError CmdBuilder :=
  if b.capacity < b.written.length + 1 then Except.error BuildError.bufferOverflow
  else Except.ok { b with written := b.written ++ [op] }

/-- Run a sequence of checked appends; a failing append leaves the builder
unchanged (no memory is written by a failed append). -/
def CmdBuilder.appendAll (b : CmdBuilder) : List GfxOp → CmdBuilder
  | [] => b
  | op :: ops =>
    match b.append op with
    | Except.ok b2 => CmdBuilder.appendAll b2 ops
    | Except.error _ => CmdBuilder.appendAll b ops

/-! ### Completion channels and subsystem defaults -/

/-- Modelled from the spec: libultra's `osCreateMesgQueue` / `osSendMesg` /
`osRecvMesg` are not part of src/; src only configures the queue depths.
A Completion Channel is a message queue holding up to `capacity` pending
notifications.  `signal` is the interrupt-side non-blocking send, which drops
(coalesces) when the queue is full; `waitOne` is the blocking receive,
consuming exactly one pending notification (`none` means the caller blocks). -/
structure MesgQueue where
  capacity : Nat
  pending : Nat
  deriving DecidableEq

/-- `osCreateMesgQueue`: an empty queue of the given depth. -/
def createMesgQueue (cap : Nat) : MesgQueue :=
  { capacity := cap, pending := 0 }

/-- Interrupt-side non-blocking send: coalesces (drops) when full. -/
def MesgQueue.signal (q : MesgQueue) : MesgQueue :=
  if q.pending < q.capacity then { q with pending := q.pending + 1 } else q

/-- Blocking receive: consumes one pending notification, or blocks (`none`). -/
def MesgQueue.waitOne (q : MesgQueue) : Option MesgQueue :=
  if q.pending = 0 then none else some { q with pending := q.pending - 1 }

/-- OS calls that acquire handles or touch hardware, as performed by the
subsystem SetDefaults functions. -/
inductive OsCall
  | cartRomInit
  | leoDiskInit
  | driveRomInit
  deriving DecidableEq

/-- Configuration fields of `UbxSystemData` (lowlevel/system.h) set by
`_UbxSystemSetDefaults`. -/
structure UbxSystemData where
  dmaMsgQueueLength : Nat
  rcpMsgQueueLength : Nat
  rdpMsgQueueLength : Nat
  deriving DecidableEq

/-- Configuration fields of `UbxVideoData` (lowlevel/video.h). -/
structure UbxVideoData where
  viModeIndex : Nat
  retraceMsgQueueLength : Nat
  deriving DecidableEq

/-- Handle and configuration fields of `UbxDeviceData`
(lowlevel/device.h:~30-40).  Handles are `none` when null. -/
structure UbxDeviceData where
  pCartRom : Option Nat
  pLeoDisk : Option Nat
  pDriveRom : Option Nat
  msgLength : Nat
  deriving DecidableEq

/-- `_UbxSystemSetDefaults` (system.c:29-38): `memset(&gUbxSystem, 0, ...)`,
then set the three queue lengths to 1.  Performs no OS calls. -/
def ubxSystemSetDefaults : UbxSystemData × List OsCall :=
  ({ dmaMsgQueueLength := 1, rcpMsgQueueLength := 1, rdpMsgQueueLength := 1 }, [])

/-- `_UbxVideoSetDefaults` (video.c:29-36): `memset(&gUbxVideo, 0, ...)`
(leaving `viModeIndex = 0`), then set the retrace queue length to 1.
Performs no OS calls. -/
def ubxVideoSetDefaults : UbxVideoData × List OsCall :=
  ({ viModeIndex := 0, retraceMsgQueueLength := 1 }, [])

/-- `_UbxDeviceSetDefaults` (device.c:29-38): `memset(&gUbxDevice, 0, ...)`,
then acquire the three storage-media handles via `osCartRomInit()`,
`osLeoDiskInit()` and `osDriveRomInit()`.  The handles the OS returns are
passed in as parameters `hCart`, `hLeo`, `hDrive`. -/
def ubxDeviceSetDefaults (hCart hLeo hDrive : Nat) : UbxDeviceData × List OsCall :=
  ({ pCartRom := some hCart, pLeoDisk := some hLeo, pDriveRom := some hDrive,
     msgLength := 0 },
   [OsCall.cartRomInit, OsCall.leoDiskInit, OsCall.driveRomInit])

/-- The RDP completion channel, created by `_UbxSystemInitialize`
(system.c:55, `osCreateMesgQueue(&gUbxSystem.rdpMsgQueue, &gUbxSystem.rdpMsg,
gUbxSystem.rdpMsgQueueLength)`) at the depth configured by
`_UbxSystemSetDefaults`. -/
def rdpChannel : MesgQueue :=
  createMesgQueue (Prod.fst ubxSystemSetDefaults).rdpMsgQueueLength

/-! ### Thread priorities (src/engine/ultra_box/application.c) -/

/-- Priorities of the two schedulable contexts: the idle (bring-up) thread
and the frame-loop (main) thread; `none` means not yet created. -/
structure ThreadPri where
  idlePri : Nat
  mainPri : Option Nat
  deriving DecidableEq

/-- The statements of `idle` (application.c:48-69), in source order, followed
by the infinite `for(;;) {}` spin. -/
inductive IdleStep
  | initSystemStep
  | initVideoStep
  | initDeviceStep
  | gameInitHook
  | createMain
  | startMain
  | lowerPri
  | spin
  deriving DecidableEq

/-- The `n`-th step the idle thread executes: the seven statements of `idle`,
then spinning forever. -/
def idleStepAt (n : Nat) : IdleStep :=
  if n = 0 then IdleStep.initSystemStep
  else if n = 1 then IdleStep.initVideoStep
  else if n = 2 then IdleStep.initDeviceStep
  else if n = 3 then IdleStep.gameInitHook
  else if n = 4 then IdleStep.createMain
  else if n = 5 then IdleStep.startMain
  else if n = 6 then IdleStep.lowerPri
  else IdleStep.spin

/-- Effect of one idle-thread step on the two priorities:
`osCreateThread(&mainThread, MAIN_THREAD_ID, OnGameMainLoop, NULL,
_main_stack_end, 10)` (application.c:59) creates the main thread at
priority 10; `osSetThreadPri(NULL, 0)` (application.c:63) lowers the idle
thread to 0; every other step leaves priorities unchanged. -/
def applyIdleStep (s : ThreadPri) : IdleStep → ThreadPri
  | IdleStep.createMain => { s with mainPri := some 10 }
  | IdleStep.lowerPri => { s with idlePri := 0 }
  | _ => s

/-- State when `idle` begins: `boot` created the idle thread at priority 10
(`osCreateThread(&idleThread, IDLE_THREAD_ID, idle, NULL, _idle_stack_end,
10)`, application.c:87); the main thread does not exist yet. -/
def bootThreadState : ThreadPri :=
  { idlePri := 10, mainPri := none }

/-- Thread priorities after the idle thread has executed `n` steps. -/
def idleStateAt : Nat → ThreadPri
  | 0 => bootThreadState
  | n + 1 => applyIdleStep (idleStateAt n) (idleStepAt n)

/-! ## Helper lemmas -/

lemma frameIndexAt_succ (n : Nat) :
    frameIndexAt (n + 1) = frameIndexAt n ^^^ 1 := rfl

lemma mod_two_xor_one (n : Nat) : n % 2 ^^^ 1 = (n + 1) % 2 := by
  have h0 : (0 : Nat) ^^^ 1 = 1 := by decide
  have h1 : (1 : Nat) ^^^ 1 = 0 := by decide
  rcases Nat.mod_two_eq_zero_or_one n with h | h
  · rw [h, h0]
    omega
  · rw [h, h1]
    omega

lemma frameIndexAt_mod (n : Nat) : frameIndexAt n = n % 2 := by
  induction n with
  | zero => rfl
  | succ n ih =>
    rw [frameIndexAt_succ, ih, mod_two_xor_one]

lemma frameTraceAt_eq (n : Nat) :
    frameTraceAt n = frameEvents (frameIndexAt n) := rfl

lemma frameEvents_count_rotate (i : Nat) :
    (frameEvents i).count Event.rotate = 1 := by
  simp [frameEvents, onGameNewFrameEvents, onGameUpdateEvents,
    onGameRenderEvents, List.count_cons]

lemma frameEvents_order_sublist (i : Nat) :
    List.Sublist
      [Event.clearSubmit i, Event.waitReturn Channel.rdp, Event.drawSubmit i,
       Event.waitReturn Channel.rdp, Event.present i,
       Event.waitReturn Channel.retrace, Event.rotate]
      (frameEvents i) :=
  List.Sublist.cons _ (List.Sublist.cons₂ _ (List.Sublist.cons _
    (List.Sublist.cons _ (List.Sublist.cons _ (List.Sublist.refl _)))))

lemma frameEvents_order (i : Nat) :
    (frameEvents i).filter isSubmit
      = [Event.clearSubmit i, Event.drawSubmit i] ∧
    List.Sublist
      [Event.clearSubmit i, Event.waitReturn Channel.rdp, Event.drawSubmit i,
       Event.waitReturn Channel.rdp, Event.present i,
       Event.waitReturn Channel.retrace, Event.rotate]
      (frameEvents i) ∧
    (frameEvents i).count (Event.clearSubmit i) = 1 ∧
    (frameEvents i).count (Event.drawSubmit i) = 1 ∧
    (frameEvents i).count (Event.waitReturn Channel.rdp) = 2 ∧
    (frameEvents i).count (Event.present i) = 1 ∧
    (frameEvents i).count (Event.waitReturn Channel.retrace) = 1 ∧
    (frameEvents i).count Event.rotate = 1 := by
  refine ⟨?_, frameEvents_order_sublist i, ?_, ?_, ?_, ?_, ?_, ?_⟩ <;>
    simp [frameEvents, onGameNewFrameEvents, onGameUpdateEvents,
      onGameRenderEvents, isSubmit, List.count_cons]

lemma frameEvents_writes_target (i : Nat) :
    ∀ e ∈ frameEvents i, isWrite e = true → writeSlot e = some i := by
  intro e he hw
  simp [frameEvents, onGameNewFrameEvents, onGameUpdateEvents,
    onGameRenderEvents] at he
  rcases he with rfl | rfl | rfl | rfl | rfl | rfl | rfl | rfl | rfl | rfl | rfl <;>
    simp_all [isWrite, writeSlot]

lemma frameEvents_in_flight (i : Nat) :
    (frameEvents i).dropWhile (fun x => !(isDrawSubmit x))
      = [Event.drawSubmit i, Event.waitReturn Channel.rdp, Event.present i,
         Event.waitReturn Channel.retrace, Event.rotate] := rfl

lemma buildClearCmd_eq (headptr : Nat) :
    buildClearCmd headptr
      = ({ pListHead := headptr, pListTail := headptr + 11 },
         [(headptr, GfxOp.spDisplayList), (headptr + 1, GfxOp.dpSetCycleType),
          (headptr + 2, GfxOp.dpSetColorImage),
          (headptr + 3, GfxOp.dpSetFillColor),
          (headptr + 4, GfxOp.dpFillRectangle),
          (headptr + 5, GfxOp.dpSetColorImage),
          (headptr + 6, GfxOp.dpSetFillColor),
          (headptr + 7, GfxOp.dpFillRectangle),
          (headptr + 8, GfxOp.dpSetDepthImage),
          (headptr + 9, GfxOp.dpFullSync),
          (headptr + 10, GfxOp.spEndDisplayList)]) := by
  simp_arith [buildClearCmd, clearCmdOps, gfxWrite, UBX_GFX_CMD_NEXT,
    UBX_GFX_CMD_USE, List.foldl]

lemma append_when_full (b : CmdBuilder) (op : GfxOp)
    (h : b.capacity ≤ b.written.length) :
    b.append op = Except.error BuildError.bufferOverflow := by
  unfold CmdBuilder.append
  rw [if_pos (by omega)]

lemma appendAll_when_full (cap : Nat) (w ops : List GfxOp)
    (h : cap ≤ w.length) :
    CmdBuilder.appendAll ⟨cap, w⟩ ops = ⟨cap, w⟩ := by
  induction ops with
  | nil => rfl
  | cons op ops ih =>
    have hfull : CmdBuilder.append ⟨cap, w⟩ op
        = Except.error BuildError.bufferOverflow :=
      append_when_full ⟨cap, w⟩ op h
    simp only [CmdBuilder.appendAll, hfull]
    exact ih

lemma appendAll_written (cap : Nat) (w ops : List GfxOp)
    (h : w.length ≤ cap) :
    (CmdBuilder.appendAll ⟨cap, w⟩ ops).written
      = w ++ ops.take (cap - w.length) := by
  induction ops generalizing w with
  | nil => simp [CmdBuilder.appendAll]
  | cons op ops ih =>
    by_cases hc : cap < w.length + 1
    · have heq : w.length = cap := by omega
      have hfull : CmdBuilder.append ⟨cap, w⟩ op
          = Except.error BuildError.bufferOverflow :=
        append_when_full ⟨cap, w⟩ op (by change cap ≤ w.length; omega)
      simp only [CmdBuilder.appendAll, hfull]
      rw [appendAll_when_full cap w ops (by omega)]
      simp [heq]
    · have hok : CmdBuilder.append ⟨cap, w⟩ op
          = Except.ok ⟨cap, w ++ [op]⟩ := by
        unfold CmdBuilder.append
        rw [if_neg (by change ¬ (cap < w.length + 1); omega)]
      simp only [CmdBuilder.appendAll, hok]
      rw [ih (w ++ [op]) (by simp; omega)]
      have h2 : cap - w.length = (cap - (w.length + 1)) + 1 := by omega
      rw [h2, List.take_succ_cons]
      simp

lemma idleStepAt_spin (n : Nat) (h : 7 ≤ n) :
    idleStepAt n = IdleStep.spin := by
  unfold idleStepAt
  split_ifs <;> first | rfl | omega

lemma idlePri_after_lower (k : Nat) : (idleStateAt (7 + k)).idlePri = 0 := by
  induction k with
  | zero => decide
  | succ k ih =>
    have h7 : 7 + (k + 1) = (7 + k) + 1 := by omega
    rw [h7]
    show (applyIdleStep (idleStateAt (7 + k)) (idleStepAt (7 + k))).idlePri = 0
    rw [idleStepAt_spin (7 + k) (by omega)]
    simpa [applyIdleStep] using ih

/-! ## Claim theorems -/

/-- C1: starting from initial frame index 0, every completed frame-loop
iteration rotates the Frame Index by xor with 1 exactly once, as its final
action, so the sequence of frame indices over any run is exactly
0,1,0,1,… (`frameIndexAt n = n % 2`) with no repeats or skips. -/
theorem frame_index_sequence_alternates (n : Nat) :
    frameIndexAt n = n % 2 ∧
    (frameTraceAt n).count Event.rotate = 1 ∧
    (frameTraceAt n).getLast? = some Event.rotate := by
  refine ⟨frameIndexAt_mod n, ?_, ?_⟩
  · rw [frameTraceAt_eq]
    exact frameEvents_count_rotate _
  · rw [frameTraceAt_eq]
    simp [frameEvents, onGameNewFrameEvents, onGameUpdateEvents,
      onGameRenderEvents]

/-- C2: within every frame-loop iteration the seven events occur in the
strict total order clear-submit, clear-wait (RDP queue), draw-submit,
draw-wait (RDP queue), present, refresh-wait (retrace queue), rotate; the
occurrence counts make the order strict, and exactly 2 jobs are submitted
per frame, clear first then draw. -/
theorem frame_event_total_order (n : Nat) :
    (frameTraceAt n).filter isSubmit
      = [Event.clearSubmit (frameIndexAt n), Event.drawSubmit (frameIndexAt n)] ∧
    List.Sublist
      [Event.clearSubmit (frameIndexAt n), Event.waitReturn Channel.rdp,
       Event.drawSubmit (frameIndexAt n), Event.waitReturn Channel.rdp,
       Event.present (frameIndexAt n), Event.waitReturn Channel.retrace,
       Event.rotate]
      (frameTraceAt n) ∧
    (frameTraceAt n).count (Event.clearSubmit (frameIndexAt n)) = 1 ∧
    (frameTraceAt n).count (Event.drawSubmit (frameIndexAt n)) = 1 ∧
    (frameTraceAt n).count (Event.waitReturn Channel.rdp) = 2 ∧
    (frameTraceAt n).count (Event.present (frameIndexAt n)) = 1 ∧
    (frameTraceAt n).count (Event.waitReturn Channel.retrace) = 1 ∧
    (frameTraceAt n).count Event.rotate = 1 := by
  rw [frameTraceAt_eq]
  exact frameEvents_order (frameIndexAt n)

/-- C4: in every frame, from the draw-job submission to the end of the
iteration (which covers the in-flight window up to the refresh-wait return),
the frame-loop context performs no write to any slot's buffers: the trace
suffix starting at the draw submission is exactly draw-submit, draw-wait,
present, refresh-wait, rotate, none of which is a write; moreover every
frame-loop write targets only the slot selected by the current Frame Index,
which changes only at the final rotate. -/
theorem in_flight_window_no_writes (n : Nat) :
    ((frameTraceAt n).dropWhile (fun x => !(isDrawSubmit x))
       = [Event.drawSubmit (frameIndexAt n), Event.waitReturn Channel.rdp,
          Event.present (frameIndexAt n), Event.waitReturn Channel.retrace,
          Event.rotate]) ∧
    (∀ e ∈ (frameTraceAt n).dropWhile (fun x => !(isDrawSubmit x)),
        isWrite e = false) ∧
    (∀ e ∈ frameTraceAt n, isWrite e = true →
        writeSlot e = some (frameIndexAt n)) := by
  rw [frameTraceAt_eq]
  refine ⟨frameEvents_in_flight _, ?_, frameEvents_writes_target _⟩
  rw [frameEvents_in_flight]
  intro e he
  simp at he
  rcases he with rfl | rfl | rfl | rfl | rfl <;> rfl

/-- Witness for C4 at frame 0: the draw-submit event itself is not a write,
and the vertex write of frame 0 targets slot 0. -/
theorem in_flight_window_no_writes_witness :
    isWrite (Event.drawSubmit 0) = false ∧
    writeSlot (Event.writeVertex 0) = some (frameIndexAt 0) :=
  ⟨(in_flight_window_no_writes 0).2.1 (Event.drawSubmit 0) (by decide),
   (in_flight_window_no_writes 0).2.2 (Event.writeVertex 0) (by decide)
     (by decide)⟩

/-- C3: for any sequence of appends after opening a checked command buffer,
the builder never writes past `capacity` (the written region holds the first
`capacity` opcodes at most), and an append that would advance the cursor
beyond capacity fails with `BufferOverflow`, writing no memory. -/
theorem cmd_builder_never_overflows (cap : Nat) (ops : List GfxOp) :
    ((openCmdBuffer cap).appendAll ops).written.length ≤ cap ∧
    ((openCmdBuffer cap).appendAll ops).written = ops.take cap ∧
    (∀ b : CmdBuilder, ∀ op : GfxOp, b.capacity ≤ b.written.length →
      b.append op = Except.error BuildError.bufferOverflow) := by
  have hw : ((openCmdBuffer cap).appendAll ops).written = ops.take cap := by
    have h := appendAll_written cap [] ops (by simp)
    simpa [openCmdBuffer] using h
  refine ⟨?_, hw, fun b op h => append_when_full b op h⟩
  rw [hw]
  simp [List.length_take]

/-- Witness for C3: with capacity 2, appending three opcodes writes only the
first two, and the append on the full builder fails with `BufferOverflow`. -/
theorem cmd_builder_never_overflows_witness :
    ((openCmdBuffer 2).appendAll
        [GfxOp.spDisplayList, GfxOp.dpFullSync, GfxOp.spEndDisplayList]).written
      = [GfxOp.spDisplayList, GfxOp.dpFullSync] ∧
    CmdBuilder.append ⟨2, [GfxOp.spDisplayList, GfxOp.dpFullSync]⟩
        GfxOp.spEndDisplayList
      = Except.error BuildError.bufferOverflow :=
  ⟨(cmd_builder_never_overflows 2
      [GfxOp.spDisplayList, GfxOp.dpFullSync, GfxOp.spEndDisplayList]).2.1,
   (cmd_builder_never_overflows 2 []).2.2
     ⟨2, [GfxOp.spDisplayList, GfxOp.dpFullSync]⟩ GfxOp.spEndDisplayList
     (by decide)⟩

/-- C5: the RDP completion channel has depth 1; two signals before any wait
coalesce into a single pending notification; one `waitOne` then consumes
exactly that one, leaving zero pending; and in general a signal never pushes
a queue past its capacity. -/
theorem completion_channel_coalesces :
    rdpChannel.capacity = 1 ∧
    rdpChannel.signal.signal.pending = 1 ∧
    rdpChannel.signal.signal.waitOne = some { capacity := 1, pending := 0 } ∧
    (∀ q : MesgQueue, q.pending ≤ q.capacity →
      q.signal.pending ≤ q.capacity) := by
  refine ⟨rfl, by decide, by decide, ?_⟩
  intro q h
  unfold MesgQueue.signal
  split
  · simpa using (by omega : q.pending + 1 ≤ q.capacity)
  · exact h

/-- Witness for C5: a full depth-1 queue stays within capacity when
signaled again. -/
theorem completion_channel_coalesces_witness :
    (MesgQueue.mk 1 1).signal.pending ≤ 1 :=
  completion_channel_coalesces.2.2.2 (MesgQueue.mk 1 1) (by decide)

/-- C6 counterexample: the device subsystem's SetDefaults is not free of
handle acquisition — `_UbxDeviceSetDefaults` performs the three storage
handle-acquisition OS calls (`osCartRomInit`, `osLeoDiskInit`,
`osDriveRomInit`), so its call list is nonempty. -/
theorem set_defaults_pure_counterexample :
    (ubxDeviceSetDefaults 1 2 3).2 ≠ [] ∧
    OsCall.cartRomInit ∈ (ubxDeviceSetDefaults 1 2 3).2 := by
  decide

/-- C6 amended: the system and video SetDefaults perform no OS calls, only
zeroing state and setting default queue depths (1) and mode index (0); the
device SetDefaults zeroes state but in addition acquires the three
storage-media handles, performing exactly those three OS calls. -/
theorem set_defaults_effects (hCart hLeo hDrive : Nat) :
    ubxSystemSetDefaults.2 = [] ∧
    ubxVideoSetDefaults.2 = [] ∧
    ubxSystemSetDefaults.1.dmaMsgQueueLength = 1 ∧
    ubxSystemSetDefaults.1.rcpMsgQueueLength = 1 ∧
    ubxSystemSetDefaults.1.rdpMsgQueueLength = 1 ∧
    ubxVideoSetDefaults.1.viModeIndex = 0 ∧
    ubxVideoSetDefaults.1.retraceMsgQueueLength = 1 ∧
    (ubxDeviceSetDefaults hCart hLeo hDrive).2
      = [OsCall.cartRomInit, OsCall.leoDiskInit, OsCall.driveRomInit] ∧
    (ubxDeviceSetDefaults hCart hLeo hDrive).1.pCartRom = some hCart ∧
    (ubxDeviceSetDefaults hCart hLeo hDrive).1.pLeoDisk = some hLeo ∧
    (ubxDeviceSetDefaults hCart hLeo hDrive).1.pDriveRom = some hDrive ∧
    (ubxDeviceSetDefaults hCart hLeo hDrive).1.msgLength = 0 :=
  ⟨rfl, rfl, rfl, rfl, rfl, rfl, rfl, rfl, rfl, rfl, rfl, rfl⟩

/-- C7 counterexample: when the idle (bring-up) thread creates and starts the
main (frame-loop) thread, the main thread's priority is 10 while the idle
thread's priority at that moment is also 10 — equal, not strictly greater. -/
theorem spawn_priority_counterexample :
    (idleStateAt 5).mainPri = some 10 ∧
    (idleStateAt 4).idlePri = 10 ∧
    ¬ (10 > 10) := by
  decide

/-- C7 amended: the frame-loop thread is spawned at a priority equal to the
bring-up thread's priority at that moment (both 10); it becomes strictly
higher only after the bring-up thread lowers itself to 0 in the following
`osSetThreadPri(NULL, 0)` step. -/
theorem spawn_priority_equal_then_lower :
    (idleStateAt 5).mainPri = some (idleStateAt 4).idlePri ∧
    (idleStateAt 7).mainPri = some 10 ∧
    (idleStateAt 7).idlePri = 0 ∧
    (idleStateAt 7).idlePri < 10 := by
  decide

/-- C8: once the bring-up (idle) thread has lowered its own priority to the
minimum value 0 (its step 6, `osSetThreadPri(NULL, 0)`), its priority is
monotonically non-increasing for the remainder of the run: every later state
has priority at most any earlier post-lowering state's. -/
theorem idle_priority_monotone (m n : Nat) (hm : 7 ≤ m) (hmn : m ≤ n) :
    (idleStateAt 7).idlePri = 0 ∧
    (idleStateAt n).idlePri ≤ (idleStateAt m).idlePri := by
  obtain ⟨k, rfl⟩ : ∃ k, m = 7 + k := ⟨m - 7, by omega⟩
  obtain ⟨j, rfl⟩ : ∃ j, n = 7 + j := ⟨n - 7, by omega⟩
  rw [idlePri_after_lower, idlePri_after_lower]
  exact ⟨idlePri_after_lower 0, Nat.le_refl 0⟩

/-- Witness for C8 at steps 7 and 9. -/
theorem idle_priority_monotone_witness :
    (idleStateAt 7).idlePri = 0 ∧
    (idleStateAt 9).idlePri ≤ (idleStateAt 7).idlePri :=
  idle_priority_monotone 7 9 (by decide) (by decide)

/-- C9: building the clear command list writes exactly the 11 commands of
`_OnGameNewFrame` through the unchecked cursor, so the final tail is
`head + 11` and every written index stays strictly below
`head + GFX_CLEAR_CMD_LENGTH` (capacity 16), even though `UBX_GFX_CMD_NEXT`
performs no bounds check. -/
theorem clear_cmd_within_capacity (headptr : Nat) :
    (buildClearCmd headptr).1.pListTail = headptr + clearCmdOps.length ∧
    clearCmdOps.length ≤ GFX_CLEAR_CMD_LENGTH ∧
    (∀ pos op, (pos, op) ∈ (buildClearCmd headptr).2 →
      headptr ≤ pos ∧ pos < headptr + GFX_CLEAR_CMD_LENGTH) := by
  rw [buildClearCmd_eq]
  refine ⟨by simp [clearCmdOps], by decide, ?_⟩
  intro pos op h
  simp only [GFX_CLEAR_CMD_LENGTH]
  simp only [List.mem_cons, List.not_mem_nil, or_false, Prod.mk.injEq] at h
  rcases h with ⟨rfl, -⟩ | ⟨rfl, -⟩ | ⟨rfl, -⟩ | ⟨rfl, -⟩ | ⟨rfl, -⟩ |
    ⟨rfl, -⟩ | ⟨rfl, -⟩ | ⟨rfl, -⟩ | ⟨rfl, -⟩ | ⟨rfl, -⟩ | ⟨rfl, -⟩ <;>
    omega

/-- Witness for C9: the first clear command is written at the buffer head,
within capacity. -/
theorem clear_cmd_within_capacity_witness :
    0 ≤ 0 ∧ 0 < 0 + GFX_CLEAR_CMD_LENGTH :=
  (clear_cmd_within_capacity 0).2.2 0 GfxOp.spDisplayList (by decide)

/-- C10: at the start of every frame-loop iteration the display controller's
source buffer is the framebuffer of the slot not selected by the current
Frame Index (`gFrameBuffer[1 - gDrawBufferIndex]`): established by the
initial `osViSwapBuffer(gFrameBuffer[1])` with build index 0, and preserved
because each iteration presents the current slot and then rotates once. -/
theorem display_reads_other_slot (n : Nat) :
    (stateAfter n).displayBuffer = 1 - (stateAfter n).drawBufferIndex := by
  induction n with
  | zero => rfl
  | succ n _ =>
    show (stateAfter n).drawBufferIndex = 1 - ((stateAfter n).drawBufferIndex ^^^ 1)
    have h : (stateAfter n).drawBufferIndex = n % 2 := frameIndexAt_mod n
    rw [h]
    rcases Nat.mod_two_eq_zero_or_one n with h2 | h2 <;>
      · rw [h2]
        rfl

end UltraBox
